import Mathlib

/-!
Verification development for the MouseBridge input-bridging service.

The definitions below are a shallow embedding of the Rust sources:
  * `src/src-tauri/src/config.rs`  — configuration records
  * `src/src-tauri/src/bridge.rs`  — `MouseBridgeService` state machine
  * `src/src-tauri/src/network.rs` — transport handles (`stop`/`disconnect`
    always return `Ok`, so they are modelled as infallible)
  * `src/src-tauri/src/input.rs`   — gesture detection, capture diffing,
    event injection, cursor-speed clamping

Machine floats (`f64` angles and distances) are modelled over `ℝ`;
machine integers stay well inside their ranges here, so `ℤ`/`ℕ` are used
directly.  The `tokio::sync::Mutex` on the service's `mode` field is
modelled explicitly: a method body that awaits that lock while the same
task already holds it never completes, which the embedding represents by
returning `Option.none`.
-/

namespace MouseBridge

/-! ### config.rs -/

inductive Protocol
  | WebRTC
  | UDP
  | TCP
deriving DecidableEq

structure ConnectionConfig where
  host : String
  port : Nat
  protocol : Protocol
  timeout_ms : Nat
deriving DecidableEq

/-- `ConnectionConfig::default` from config.rs. -/
def ConnectionConfig.default : ConnectionConfig :=
  { host := "127.0.0.1", port := 4242, protocol := Protocol.WebRTC, timeout_ms := 5000 }

/-! ### bridge.rs data model -/

inductive BridgeMode
  | Server
  | Client
  | Disconnected
deriving DecidableEq

structure ServerInfo where
  hostname : String
  ip : String
  port : Nat
  fingerprint : String
deriving DecidableEq

/-- Transport handle returned by `Server::start` (network.rs). The `id`
tags the background task the handle controls. -/
structure ServerHandle where
  id : Nat
deriving DecidableEq

/-- Transport handle returned by `Client::connect` (network.rs). -/
structure ClientHandle where
  id : Nat
deriving DecidableEq

/-- The mutable fields of `MouseBridgeService` (bridge.rs lines 19-26).
Each field sits behind its own `tokio::sync::Mutex`; apart from `mode`
every lock is taken and released within a single statement, so only the
`mode` lock needs explicit tracking (see `lockMode`). -/
structure ServiceState where
  mode : BridgeMode
  server : Option ServerHandle
  client : Option ClientHandle
  config : ConnectionConfig
  server_info : Option ServerInfo
deriving DecidableEq

/-- `MouseBridgeService::new` (bridge.rs lines 37-46). -/
def MouseBridgeService.new : ServiceState :=
  { mode := BridgeMode.Disconnected
    server := none
    client := none
    config := ConnectionConfig.default
    server_info := none }

/-- Awaiting `self.mode.lock()`.  `tokio::sync::Mutex` is not reentrant:
if the current task already holds the guard (`modeHeld = true`) the lock
future never resolves, so the surrounding call never completes, which
the embedding represents by `none`. -/
def lockMode (modeHeld : Bool) : Option Unit :=
  if modeHeld then none else some ()

/-- `MouseBridgeService::stop_server` (bridge.rs lines 82-98).
`ServerHandle::stop` ignores the send result and returns `Ok` (network.rs
lines 107-110), so the `?` on it never propagates an error. -/
def stop_server (modeHeld : Bool) (s : ServiceState) : Option ServiceState :=
  (lockMode modeHeld).bind fun _ =>
    if ¬ s.mode = BridgeMode.Server then
      some s
    else
      some { s with server := none
                    mode := BridgeMode.Disconnected
                    server_info := none }

/-- `MouseBridgeService::disconnect_client` (bridge.rs lines 122-137). -/
def disconnect_client (modeHeld : Bool) (s : ServiceState) : Option ServiceState :=
  (lockMode modeHeld).bind fun _ =>
    if ¬ s.mode = BridgeMode.Client then
      some s
    else
      some { s with client := none
                    mode := BridgeMode.Disconnected }

/-- `MouseBridgeService::start_server` (bridge.rs lines 48-80).  The
`hostname`, `ip`, `fingerprint` and `handleId` parameters stand for the
values produced by `hostname::get`, `local_ipaddress::get`,
`Uuid::new_v4` and the spawned capture task.  The nested calls to
`stop_server` and `disconnect_client` happen while the `mode` guard
obtained at the top of the body is still held, hence `modeHeld := true`
at those call sites. -/
def start_server (modeHeld : Bool) (config : ConnectionConfig)
    (hostname ip fingerprint : String) (handleId : Nat)
    (s : ServiceState) : Option ServiceState :=
  (lockMode modeHeld).bind fun _ =>
    if s.mode = BridgeMode.Server then
      some s
    else
      (stop_server true s).bind fun s1 =>
        (disconnect_client true s1).bind fun s2 =>
          let info : ServerInfo :=
            { hostname := hostname, ip := ip, port := config.port, fingerprint := fingerprint }
          let handle : ServerHandle := { id := handleId }
          some { s2 with mode := BridgeMode.Server
                         config := config
                         server := some handle
                         server_info := some info }

/-- `MouseBridgeService::connect_client` (bridge.rs lines 100-120). -/
def connect_client (modeHeld : Bool) (config : ConnectionConfig)
    (handleId : Nat) (s : ServiceState) : Option ServiceState :=
  (lockMode modeHeld).bind fun _ =>
    if s.mode = BridgeMode.Client then
      some s
    else
      (stop_server true s).bind fun s1 =>
        (disconnect_client true s1).bind fun s2 =>
          let handle : ClientHandle := { id := handleId }
          some { s2 with mode := BridgeMode.Client
                         config := config
                         client := some handle }

/-- `MouseBridgeService::get_server_info` (bridge.rs lines 154-165): only
the `server_info` mutex is taken, and the stored record is copied
field-by-field into the reply. -/
def get_server_info (s : ServiceState) : Except String ServerInfo :=
  match s.server_info with
  | some info =>
      Except.ok { hostname := info.hostname, ip := info.ip
                  port := info.port, fingerprint := info.fingerprint }
  | none => Except.error "Server not running"

/-- A BridgeMode transition request issued from outside the service
(mode lock not held by the caller's task). -/
inductive Request
  | startServer (config : ConnectionConfig) (hostname ip fingerprint : String) (handleId : Nat)
  | stopServer
  | connectClient (config : ConnectionConfig) (handleId : Nat)
  | disconnectClient

/-- Dispatch a transition request against the service state.  `none`
means the call never completes. -/
def step (r : Request) (s : ServiceState) : Option ServiceState :=
  match r with
  | Request.startServer config hostname ip fingerprint handleId =>
      start_server false config hostname ip fingerprint handleId s
  | Request.stopServer => stop_server false s
  | Request.connectClient config handleId => connect_client false config handleId s
  | Request.disconnectClient => disconnect_client false s

/-- State invariant: a handle of each role is stored exactly when the
mode names that role, and the server identity is stored exactly in
Server mode. -/
def RoleInv (s : ServiceState) : Prop :=
  (s.server.isSome ↔ s.mode = BridgeMode.Server) ∧
  (s.client.isSome ↔ s.mode = BridgeMode.Client) ∧
  (s.server_info.isSome ↔ s.mode = BridgeMode.Server)

instance (s : ServiceState) : Decidable (RoleInv s) := by
  unfold RoleInv; infer_instance

/-- A Transport handle of the role matching the current mode is stored. -/
def matchingHandleStored (s : ServiceState) : Prop :=
  (s.mode = BridgeMode.Server ∧ s.server.isSome) ∨
  (s.mode = BridgeMode.Client ∧ s.client.isSome)

instance (s : ServiceState) : Decidable (matchingHandleStored s) := by
  unfold matchingHandleStored; infer_instance

/-! ### input.rs: gesture detection -/

/-- `f64::atan2` (self = y, argument = x), modelled over `ℝ`.  Matches
the IEEE definition on all inputs that arise here (finite, and the
integer samples make signed zero irrelevant). -/
noncomputable def atan2 (y x : ℝ) : ℝ :=
  if 0 < x then Real.arctan (y / x)
  else if x < 0 ∧ 0 ≤ y then Real.arctan (y / x) + Real.pi
  else if x < 0 ∧ y < 0 then Real.arctan (y / x) - Real.pi
  else if x = 0 ∧ 0 < y then Real.pi / 2
  else if x = 0 ∧ y < 0 then -(Real.pi / 2)
  else 0

/-- `GestureTracker` (input.rs lines 36-41).  `start_time` is a wall
clock instant; what `detect_gesture` consumes is
`start_time.elapsed().as_millis()`, modelled as the field
`elapsed_ms` holding that value at the moment of the call. -/
structure GestureTracker where
  points : List (ℤ × ℤ)
  elapsed_ms : ℕ
  is_active : Bool

/-- `GestureTracker::add_point` (input.rs lines 52-57). -/
def add_point (t : GestureTracker) (x y : ℤ) : GestureTracker :=
  let pts := t.points ++ [(x, y)]
  { t with points := if pts.length > 100 then pts.drop 1 else pts }

/-- `self.points.last().unwrap().0 - self.points.first().unwrap().0`
(input.rs line 70); the default is never used once `points.len() >= 5`. -/
def net_dx (t : GestureTracker) : ℤ :=
  (t.points.getLast?.getD (0, 0)).1 - (t.points.head?.getD (0, 0)).1

/-- `dy` of the net displacement (input.rs line 71). -/
def net_dy (t : GestureTracker) : ℤ :=
  (t.points.getLast?.getD (0, 0)).2 - (t.points.head?.getD (0, 0)).2

/-- `((dx * dx + dy * dy) as f64).sqrt()` (input.rs line 72). -/
noncomputable def net_distance (t : GestureTracker) : ℝ :=
  Real.sqrt ((net_dx t * net_dx t + net_dy t * net_dy t : ℤ) : ℝ)

/-- `(dy as f64).atan2(dx as f64) * 180.0 / PI` (input.rs line 78). -/
noncomputable def angleDeg (dx dy : ℤ) : ℝ :=
  atan2 (dy : ℝ) (dx : ℝ) * 180 / Real.pi

/-- The `match angle` expression of input.rs lines 80-86: Rust range
patterns are inclusive at both ends and the arms are tried in source
order, so the first arm containing the angle wins. -/
noncomputable def bucketAngle (angle : ℝ) : Option String :=
  if -45 ≤ angle ∧ angle ≤ 45 then some "right"
  else if 45 ≤ angle ∧ angle ≤ 135 then some "down"
  else if (135 ≤ angle ∧ angle ≤ 180) ∨ (-180 ≤ angle ∧ angle ≤ -135) then some "left"
  else if -135 ≤ angle ∧ angle ≤ -45 then some "up"
  else none

/-- `GestureTracker::detect_gesture` (input.rs lines 59-87). -/
noncomputable def detect_gesture (t : GestureTracker) : Option String :=
  if t.points.length < 5 then none
  else if t.elapsed_ms < 500 then none
  else if net_distance t < 50 then none
  else bucketAngle (angleDeg (net_dx t) (net_dy t))

/-! ### input.rs: capture diffing -/

/-- `device_query::MouseState`: coordinates and per-button pressed
state, as consumed by `capture_mouse_events`. -/
structure MouseState where
  coords : ℤ × ℤ
  button_pressed : List Bool
deriving DecidableEq

/-- `MouseEvent` (input.rs lines 8-16). -/
structure MouseEvent where
  x : ℤ
  y : ℤ
  button : Option String
  pressed : Bool
  wheel_x : ℤ
  wheel_y : ℤ
deriving DecidableEq

/-- The `match i` mapping of input.rs lines 144-149. -/
def button_name (i : ℕ) : Option String :=
  match i with
  | 0 => some "left"
  | 1 => some "right"
  | 2 => some "middle"
  | _ => none

/-- The move event pushed when coordinates changed (input.rs 129-136). -/
def move_event (current_mouse : MouseState) : MouseEvent :=
  { x := current_mouse.coords.1, y := current_mouse.coords.2
    button := none, pressed := false, wheel_x := 0, wheel_y := 0 }

/-- The button-edge event pushed for index `i` (input.rs 152-159),
provided `button_name i` is defined. -/
def button_edge_event (current_mouse : MouseState) (i : ℕ) (pressed : Bool) :
    Option MouseEvent :=
  (button_name i).map fun btn =>
    { x := current_mouse.coords.1, y := current_mouse.coords.2
      button := some btn, pressed := pressed, wheel_x := 0, wheel_y := 0 }

/-- `InputManager::capture_mouse_events` (input.rs lines 121-169): the
current device sample is diffed against the stored previous sample; the
returned pair is (pushed events, new stored sample). -/
def capture_mouse_events (current_mouse last_mouse : MouseState) :
    List MouseEvent × MouseState :=
  let events : List MouseEvent :=
    if current_mouse.coords ≠ last_mouse.coords then [move_event current_mouse] else []
  let events := current_mouse.button_pressed.enum.foldl
    (fun evs ip =>
      let last_pressed := (last_mouse.button_pressed.get? ip.1).getD false
      if ip.2 ≠ last_pressed then
        match button_edge_event current_mouse ip.1 ip.2 with
        | some e => evs ++ [e]
        | none => evs
      else evs)
    events
  (events, current_mouse)

/-- Per-index description of the button-edge events: one event for each
index of the current sample whose pressed state differs from the
previous sample (absent previous entries read as `false`), mapped
through `button_name`, in index order. -/
def expected_button_events (current_mouse last_mouse : MouseState) : List MouseEvent :=
  (List.range current_mouse.button_pressed.length).filterMap fun i =>
    let pressed := (current_mouse.button_pressed.get? i).getD false
    let last_pressed := (last_mouse.button_pressed.get? i).getD false
    if pressed ≠ last_pressed then button_edge_event current_mouse i pressed else none

/-! ### input.rs: event injection -/

inductive MouseButton
  | left
  | right
  | middle
deriving DecidableEq

/-- One call into the `enigo` backend, in the order the calls are
issued by `emulate_mouse_event`. -/
inductive EnigoCall
  | mouse_move_to (x y : ℤ)
  | mouse_down (button : MouseButton)
  | mouse_up (button : MouseButton)
  | mouse_scroll_x (delta : ℤ)
  | mouse_scroll_y (delta : ℤ)
deriving DecidableEq

/-- The `match button_str.as_str()` of input.rs lines 180-185. -/
def parse_button (s : String) : Option MouseButton :=
  match s with
  | "left" => some MouseButton.left
  | "right" => some MouseButton.right
  | "middle" => some MouseButton.middle
  | _ => none

/-- `InputManager::emulate_mouse_event` (input.rs lines 171-202),
returning the ordered trace of enigo calls.  An unknown button name
takes the early `return Ok(())` on line 184, skipping both the button
and the wheel handling. -/
def emulate_mouse_event (event : MouseEvent) : Except String (List EnigoCall) :=
  let calls := [EnigoCall.mouse_move_to event.x event.y]
  match event.button with
  | some button_str =>
    match parse_button button_str with
    | none => Except.ok calls
    | some button =>
      let calls := calls ++
        [if event.pressed then EnigoCall.mouse_down button else EnigoCall.mouse_up button]
      let calls := calls ++
        (if event.wheel_x ≠ 0 then [EnigoCall.mouse_scroll_x event.wheel_x] else [])
      let calls := calls ++
        (if event.wheel_y ≠ 0 then [EnigoCall.mouse_scroll_y event.wheel_y] else [])
      Except.ok calls
  | none =>
    let calls := calls ++
      (if event.wheel_x ≠ 0 then [EnigoCall.mouse_scroll_x event.wheel_x] else [])
    let calls := calls ++
      (if event.wheel_y ≠ 0 then [EnigoCall.mouse_scroll_y event.wheel_y] else [])
    Except.ok calls

/-- The button edge of an event, when its button name is known. -/
def button_calls (event : MouseEvent) : List EnigoCall :=
  match event.button with
  | none => []
  | some button_str =>
    match parse_button button_str with
    | none => []
    | some button =>
      [if event.pressed then EnigoCall.mouse_down button else EnigoCall.mouse_up button]

/-- The wheel calls of an event: each nonzero delta, x before y. -/
def wheel_calls (event : MouseEvent) : List EnigoCall :=
  (if event.wheel_x ≠ 0 then [EnigoCall.mouse_scroll_x event.wheel_x] else [])
    ++ (if event.wheel_y ≠ 0 then [EnigoCall.mouse_scroll_y event.wheel_y] else [])

/-! ### input.rs: cursor speed -/

/-- `InputConfig` (input.rs lines 25-34); `f32` fields over `ℚ`. -/
structure InputConfig where
  cursor_speed : ℚ
  mouse_acceleration : Bool
  acceleration_sensitivity : ℚ
  cursor_locked : Bool
  locked_screen : Option ℕ
  gesture_enabled : Bool
  gesture_sensitivity : ℚ
deriving DecidableEq

/-- `set_cursor_speed` (input.rs lines 264-269):
`config.cursor_speed = speed.max(0.1).min(5.0)`. -/
def set_cursor_speed (config : InputConfig) (speed : ℚ) : InputConfig :=
  { config with cursor_speed := min (max speed (1 / 10)) 5 }

/-- The initial `InputConfig` installed by `InputManager::new`
(input.rs lines 108-116). -/
def InputManager.new_config : InputConfig :=
  { cursor_speed := 1, mouse_acceleration := false, acceleration_sensitivity := 1
    cursor_locked := false, locked_screen := none
    gesture_enabled := false, gesture_sensitivity := 1 }

/-! ### Concrete test strokes -/

/-- The spec's stroke `(0,0)→(100,0)` in five samples, with the elapsed
milliseconds as a parameter. -/
def stroke_right (elapsed : ℕ) : GestureTracker :=
  { points := [(0, 0), (25, 0), (50, 0), (75, 0), (100, 0)]
    elapsed_ms := elapsed, is_active := true }

/-- Diagonal stroke `(0,0)→(100,100)`: displacement angle exactly 45°,
on the seam between the `right` and `down` sectors. -/
def stroke_diag : GestureTracker :=
  { points := [(0, 0), (25, 25), (50, 50), (75, 75), (100, 100)]
    elapsed_ms := 600, is_active := true }

/-- Stroke of net displacement magnitude 10 over 600 ms. -/
def stroke_short : GestureTracker :=
  { points := [(0, 0), (2, 0), (4, 0), (6, 0), (10, 0)]
    elapsed_ms := 600, is_active := true }

/-- Stroke of net displacement magnitude exactly 50 over 600 ms. -/
def stroke_mag50 : GestureTracker :=
  { points := [(0, 0), (10, 0), (20, 0), (30, 0), (50, 0)]
    elapsed_ms := 600, is_active := true }

/-! ## Helper lemmas: service state machine -/

lemma stop_server_held (s : ServiceState) : stop_server true s = none := rfl

lemma disconnect_client_held (s : ServiceState) : disconnect_client true s = none := rfl

lemma stop_server_free (s : ServiceState) :
    stop_server false s =
      some (if s.mode = BridgeMode.Server then
              { s with server := none, mode := BridgeMode.Disconnected, server_info := none }
            else s) := by
  by_cases h : s.mode = BridgeMode.Server <;> simp [stop_server, lockMode, h]

lemma disconnect_client_free (s : ServiceState) :
    disconnect_client false s =
      some (if s.mode = BridgeMode.Client then
              { s with client := none, mode := BridgeMode.Disconnected }
            else s) := by
  by_cases h : s.mode = BridgeMode.Client <;> simp [disconnect_client, lockMode, h]

lemma start_server_free (config : ConnectionConfig) (hostname ip fingerprint : String)
    (handleId : Nat) (s : ServiceState) :
    start_server false config hostname ip fingerprint handleId s =
      if s.mode = BridgeMode.Server then some s else none := by
  by_cases h : s.mode = BridgeMode.Server <;>
    simp [start_server, lockMode, h, stop_server_held]

lemma connect_client_free (config : ConnectionConfig) (handleId : Nat) (s : ServiceState) :
    connect_client false config handleId s =
      if s.mode = BridgeMode.Client then some s else none := by
  by_cases h : s.mode = BridgeMode.Client <;>
    simp [connect_client, lockMode, h, stop_server_held]

lemma roleInv_matching (s : ServiceState) (h : RoleInv s) :
    matchingHandleStored s ↔ ¬ s.mode = BridgeMode.Disconnected := by
  obtain ⟨hs, hc, _⟩ := h
  cases hm : s.mode with
  | Server => simp [matchingHandleStored, hm, hs.mpr hm]
  | Client => simp [matchingHandleStored, hm, hc.mpr hm]
  | Disconnected => simp [matchingHandleStored, hm]

lemma step_preserves_roleInv (r : Request) (s s' : ServiceState)
    (hInv : RoleInv s) (hstep : step r s = some s') : RoleInv s' := by
  obtain ⟨hs, hc, hi⟩ := hInv
  cases r with
  | startServer config hostname ip fingerprint handleId =>
    rw [step, start_server_free] at hstep
    split at hstep
    · cases hstep; exact ⟨hs, hc, hi⟩
    · cases hstep
  | stopServer =>
    rw [step, stop_server_free] at hstep
    cases hstep
    split
    case isTrue h => refine ⟨by simp, ?_, by simp⟩; simp [hc, h]
    case isFalse h => exact ⟨hs, hc, hi⟩
  | connectClient config handleId =>
    rw [step, connect_client_free] at hstep
    split at hstep
    · cases hstep; exact ⟨hs, hc, hi⟩
    · cases hstep
  | disconnectClient =>
    rw [step, disconnect_client_free] at hstep
    cases hstep
    split
    case isTrue h => refine ⟨?_, by simp, ?_⟩ <;> simp [hs, hi, h]
    case isFalse h => exact ⟨hs, hc, hi⟩

/-! ## Claim theorems: service state machine -/

/-- Claim C1 (code bug): the claim says every `start_server` call made in
`Client` or `Disconnected` mode completes successfully with the new role
established.  In the code, `start_server` still holds the `mode` mutex
guard when it awaits `stop_server`, which re-locks the same
non-reentrant mutex, so such a call never completes: the model returns
`none` for every start request issued outside `Server` mode. -/
theorem start_server_deadlocks (s : ServiceState) (config : ConnectionConfig)
    (hostname ip fingerprint : String) (handleId : Nat)
    (h : s.mode = BridgeMode.Client ∨ s.mode = BridgeMode.Disconnected) :
    start_server false config hostname ip fingerprint handleId s = none := by
  have hne : ¬ s.mode = BridgeMode.Server := by
    rcases h with h | h <;> simp [h]
  rw [start_server_free, if_neg hne]

/-- Witness for `start_server_deadlocks` at the freshly constructed
service state. -/
theorem start_server_deadlocks_witness :
    (MouseBridgeService.new.mode = BridgeMode.Client ∨
      MouseBridgeService.new.mode = BridgeMode.Disconnected) ∧
    start_server false ConnectionConfig.default "host" "127.0.0.1" "fp" 0
      MouseBridgeService.new = none :=
  ⟨Or.inr rfl,
    start_server_deadlocks MouseBridgeService.new ConnectionConfig.default
      "host" "127.0.0.1" "fp" 0 (Or.inr rfl)⟩

/-- Claim C2: the freshly constructed service satisfies the role
invariant, and every transition request that completes preserves it; in
particular a Transport handle of the matching role is stored iff the
mode is not `Disconnected` after every completed request. -/
theorem transition_invariant :
    RoleInv MouseBridgeService.new ∧
    ∀ (r : Request) (s s' : ServiceState), RoleInv s → step r s = some s' →
      RoleInv s' ∧ (matchingHandleStored s' ↔ ¬ s'.mode = BridgeMode.Disconnected) := by
  refine ⟨by decide, fun r s s' hInv hstep => ?_⟩
  have h' := step_preserves_roleInv r s s' hInv hstep
  exact ⟨h', roleInv_matching s' h'⟩

/-- Witness for `transition_invariant`: a completed `stop_server`
request against the initial state. -/
theorem transition_invariant_witness :
    RoleInv MouseBridgeService.new ∧
    (matchingHandleStored MouseBridgeService.new ↔
      ¬ MouseBridgeService.new.mode = BridgeMode.Disconnected) := by
  refine ⟨transition_invariant.1, ?_⟩
  exact (transition_invariant.2 Request.stopServer MouseBridgeService.new
    MouseBridgeService.new (by decide) (by rw [step, stop_server_free]; rfl)).2

/-- Claim C3 (code bug): the no-op half holds — a `start_server` call
made while the mode is already `Server` returns success and leaves the
state unchanged — but a `start_server`→`start_server` sequence started
from the initial `Disconnected` state never reaches `Server`, because
the first call self-deadlocks on the `mode` mutex (it never completes,
modelled by `none`). -/
theorem start_server_idempotent_only_as_noop :
    (∀ (s : ServiceState) (config : ConnectionConfig) (hostname ip fingerprint : String)
        (handleId : Nat), s.mode = BridgeMode.Server →
        start_server false config hostname ip fingerprint handleId s = some s) ∧
    start_server false ConnectionConfig.default "host" "127.0.0.1" "fp" 0
      MouseBridgeService.new = none := by
  constructor
  · intro s config hostname ip fingerprint handleId h
    rw [start_server_free, if_pos h]
  · rw [start_server_free]; rfl

/-- Witness for `start_server_idempotent_only_as_noop` at a concrete
state already in `Server` mode. -/
theorem start_server_idempotent_only_as_noop_witness :
    start_server false ConnectionConfig.default "host" "127.0.0.1" "fp" 1
      { mode := BridgeMode.Server, server := some { id := 0 }, client := none
        config := ConnectionConfig.default, server_info := none } =
    some { mode := BridgeMode.Server, server := some { id := 0 }, client := none
           config := ConnectionConfig.default, server_info := none } :=
  start_server_idempotent_only_as_noop.1 _ _ _ _ _ _ rfl

/-- Claim C8: `get_server_info` fails with the `NotRunning` error
exactly when the mode is not `Server` (given the role invariant, under
which the stored `server_info` that the code actually inspects is
present iff the mode is `Server`); otherwise it returns a snapshot of
the stored identity. -/
theorem get_server_info_not_running (s : ServiceState) (h : RoleInv s) :
    (¬ s.mode = BridgeMode.Server → get_server_info s = Except.error "Server not running") ∧
    (s.mode = BridgeMode.Server →
      ∃ info, s.server_info = some info ∧ get_server_info s = Except.ok info) := by
  obtain ⟨_, _, hi⟩ := h
  constructor
  · intro hne
    have hnone : s.server_info = none := by
      cases hinfo : s.server_info with
      | none => rfl
      | some info => exact absurd (hi.mp (by simp [hinfo])) hne
    simp [get_server_info, hnone]
  · intro hm
    have hsome : s.server_info.isSome := hi.mpr hm
    cases hinfo : s.server_info with
    | none => rw [hinfo] at hsome; cases hsome
    | some info =>
      cases info
      exact ⟨_, rfl, by simp [get_server_info, hinfo]⟩

/-- Witness for `get_server_info_not_running` at the initial state. -/
theorem get_server_info_not_running_witness :
    get_server_info MouseBridgeService.new = Except.error "Server not running" :=
  (get_server_info_not_running MouseBridgeService.new (by decide)).1 (by decide)

/-! ## Helper lemmas: gesture detection -/

lemma atan2_of_pos (y x : ℝ) (hx : 0 < x) : atan2 y x = Real.arctan (y / x) := by
  unfold atan2; rw [if_pos hx]

lemma angleDeg_of_pos_dx (dx dy : ℤ) (hx : (0 : ℝ) < (dx : ℝ)) :
    angleDeg dx dy = Real.arctan ((dy : ℝ) / (dx : ℝ)) * 180 / Real.pi := by
  rw [angleDeg, atan2_of_pos _ _ hx]

lemma angleDeg_100_0 : angleDeg 100 0 = 0 := by
  rw [angleDeg_of_pos_dx 100 0 (by norm_num)]
  norm_num [Real.arctan_zero]

lemma angleDeg_100_100 : angleDeg 100 100 = 45 := by
  rw [angleDeg_of_pos_dx 100 100 (by norm_num)]
  rw [show ((100 : ℤ) : ℝ) / ((100 : ℤ) : ℝ) = 1 by norm_num, Real.arctan_one]
  field_simp; ring

lemma net_distance_eq (t : GestureTracker) :
    net_distance t =
      Real.sqrt ((net_dx t * net_dx t + net_dy t * net_dy t : ℤ) : ℝ) := rfl

lemma net_distance_stroke_right (elapsed : ℕ) :
    net_distance (stroke_right elapsed) = 100 := by
  rw [net_distance_eq]
  norm_num [net_dx, net_dy, stroke_right]
  rw [show (10000 : ℝ) = 100 ^ 2 by norm_num, Real.sqrt_sq (by norm_num : (0:ℝ) ≤ 100)]

lemma net_distance_stroke_short : net_distance stroke_short = 10 := by
  rw [net_distance_eq]
  norm_num [net_dx, net_dy, stroke_short]
  rw [show (100 : ℝ) = 10 ^ 2 by norm_num, Real.sqrt_sq (by norm_num : (0:ℝ) ≤ 10)]

lemma net_distance_stroke_mag50 : net_distance stroke_mag50 = 50 := by
  rw [net_distance_eq]
  norm_num [net_dx, net_dy, stroke_mag50]
  rw [show (2500 : ℝ) = 50 ^ 2 by norm_num, Real.sqrt_sq (by norm_num : (0:ℝ) ≤ 50)]

lemma net_distance_stroke_diag : net_distance stroke_diag = Real.sqrt 20000 := by
  rw [net_distance_eq]
  norm_num [net_dx, net_dy, stroke_diag]

lemma le_sqrt_20000 : (50 : ℝ) ≤ Real.sqrt 20000 := by
  have h50 : (50 : ℝ) = Real.sqrt 2500 := by
    rw [show (2500 : ℝ) = 50 ^ 2 by norm_num, Real.sqrt_sq (by norm_num : (0:ℝ) ≤ 50)]
  rw [h50]
  exact Real.sqrt_le_sqrt (by norm_num)

lemma detect_gesture_passes (t : GestureTracker)
    (h5 : 5 ≤ t.points.length) (hd : 500 ≤ t.elapsed_ms)
    (hm : (50 : ℝ) ≤ net_distance t) :
    detect_gesture t = bucketAngle (angleDeg (net_dx t) (net_dy t)) := by
  unfold detect_gesture
  rw [if_neg (Nat.not_lt.mpr h5), if_neg (Nat.not_lt.mpr hd), if_neg (not_lt.mpr hm)]

lemma bucketAngle_right_sector (a : ℝ) (h1 : -45 ≤ a) (h2 : a ≤ 45) :
    bucketAngle a = some "right" := by
  unfold bucketAngle; rw [if_pos ⟨h1, h2⟩]

lemma bucketAngle_down_sector (a : ℝ) (h1 : 45 < a) (h2 : a ≤ 135) :
    bucketAngle a = some "down" := by
  unfold bucketAngle
  rw [if_neg (fun hc => absurd hc.2 (not_le.mpr h1)), if_pos ⟨h1.le, h2⟩]

lemma bucketAngle_left_sector (a : ℝ)
    (h : (135 < a ∧ a ≤ 180) ∨ (-180 ≤ a ∧ a ≤ -135)) :
    bucketAngle a = some "left" := by
  unfold bucketAngle
  rcases h with ⟨h1, h2⟩ | ⟨h1, h2⟩
  · rw [if_neg (fun hc => absurd hc.2 (by linarith)),
        if_neg (fun hc => absurd hc.2 (not_le.mpr h1)),
        if_pos (Or.inl ⟨h1.le, h2⟩)]
  · rw [if_neg (fun hc => absurd hc.1 (by linarith)),
        if_neg (fun hc => absurd hc.1 (by linarith)),
        if_pos (Or.inr ⟨h1, h2⟩)]

lemma bucketAngle_up_sector (a : ℝ) (h1 : -135 < a) (h2 : a < -45) :
    bucketAngle a = some "up" := by
  unfold bucketAngle
  rw [if_neg (fun hc => absurd hc.1 (not_le.mpr h2)),
      if_neg (fun hc => absurd hc.1 (by linarith)),
      if_neg (by rintro (⟨hc, -⟩ | ⟨-, hc⟩) <;> linarith),
      if_pos ⟨h1.le, h2.le⟩]

lemma detect_stroke_right_600 : detect_gesture (stroke_right 600) = some "right" := by
  rw [detect_gesture_passes (stroke_right 600) (by decide) (by decide)
        (by rw [net_distance_stroke_right]; norm_num)]
  rw [show net_dx (stroke_right 600) = 100 from rfl,
      show net_dy (stroke_right 600) = 0 from rfl, angleDeg_100_0]
  exact bucketAngle_right_sector 0 (by norm_num) (by norm_num)

/-! ## Claim theorems: gesture detection -/

/-- Claim C4 (amended): for every stroke passing the duration,
point-count and distance floors, the gesture is the displacement angle
bucketed by the ordered match of input.rs; the four 90°-wide sectors
yield right/down/left/up as stated, but an angle lying exactly on a
sector seam resolves to the EARLIER-listed sector in the order right,
down, left, up (Rust takes the first matching arm), not the later one. -/
theorem gesture_bucketing (t : GestureTracker)
    (h5 : 5 ≤ t.points.length) (hd : 500 ≤ t.elapsed_ms)
    (hm : (50 : ℝ) ≤ net_distance t) :
    detect_gesture t = bucketAngle (angleDeg (net_dx t) (net_dy t)) ∧
    (∀ a : ℝ, -45 ≤ a → a ≤ 45 → bucketAngle a = some "right") ∧
    (∀ a : ℝ, 45 < a → a ≤ 135 → bucketAngle a = some "down") ∧
    (∀ a : ℝ, (135 < a ∧ a ≤ 180) ∨ (-180 ≤ a ∧ a ≤ -135) → bucketAngle a = some "left") ∧
    (∀ a : ℝ, -135 < a → a < -45 → bucketAngle a = some "up") ∧
    bucketAngle 45 = some "right" ∧ bucketAngle 135 = some "down" ∧
    bucketAngle (-135) = some "left" ∧ bucketAngle (-45) = some "right" := by
  refine ⟨detect_gesture_passes t h5 hd hm,
    bucketAngle_right_sector, bucketAngle_down_sector,
    bucketAngle_left_sector, bucketAngle_up_sector, ?_, ?_, ?_, ?_⟩
  · exact bucketAngle_right_sector 45 (by norm_num) le_rfl
  · exact bucketAngle_down_sector 135 (by norm_num) le_rfl
  · exact bucketAngle_left_sector (-135) (Or.inr ⟨by norm_num, le_rfl⟩)
  · exact bucketAngle_right_sector (-45) le_rfl (by norm_num)

/-- Witness for `gesture_bucketing` at the concrete rightward stroke. -/
theorem gesture_bucketing_witness :
    detect_gesture (stroke_right 600) =
      bucketAngle (angleDeg (net_dx (stroke_right 600)) (net_dy (stroke_right 600))) :=
  (gesture_bucketing (stroke_right 600) (by decide) (by decide)
    (by rw [net_distance_stroke_right]; norm_num)).1

/-- Counterexample to claim C4 as stated: the diagonal stroke's
displacement angle is exactly 45°, on the seam between `right` and
`down`; the later-listed sector of that seam is `down`, but
`detect_gesture` yields `right` — the first listed arm wins. -/
theorem gesture_seam_counterexample :
    angleDeg (net_dx stroke_diag) (net_dy stroke_diag) = 45 ∧
    detect_gesture stroke_diag = some "right" ∧
    detect_gesture stroke_diag ≠ some "down" := by
  have hang : angleDeg (net_dx stroke_diag) (net_dy stroke_diag) = 45 := by
    rw [show net_dx stroke_diag = 100 from rfl,
        show net_dy stroke_diag = 100 from rfl, angleDeg_100_100]
  have hdet : detect_gesture stroke_diag = some "right" := by
    rw [detect_gesture_passes stroke_diag (by decide) (by decide)
          (by rw [net_distance_stroke_diag]; exact le_sqrt_20000), hang]
    exact bucketAngle_right_sector 45 (by norm_num) le_rfl
  exact ⟨hang, hdet, by rw [hdet]; simp⟩

/-- Claim C5 (amended): no gesture is returned unless the stroke lasted
at least 500 ms, has at least 5 points, and its net displacement
magnitude is AT LEAST 50 (the code's distance floor is inclusive, so
magnitude exactly 50 passes); and the spec's three concrete scenarios
behave as stated. -/
theorem gesture_floors :
    (∀ t : GestureTracker, detect_gesture t ≠ none →
        5 ≤ t.points.length ∧ 500 ≤ t.elapsed_ms ∧ (50 : ℝ) ≤ net_distance t) ∧
    detect_gesture (stroke_right 600) = some "right" ∧
    detect_gesture (stroke_right 300) = none ∧
    detect_gesture stroke_short = none := by
  refine ⟨fun t h => ?_, detect_stroke_right_600, ?_, ?_⟩
  · unfold detect_gesture at h
    by_cases h1 : t.points.length < 5
    · simp [h1] at h
    by_cases h2 : t.elapsed_ms < 500
    · simp [h1, h2] at h
    by_cases h3 : net_distance t < 50
    · simp [h1, h2, h3] at h
    exact ⟨Nat.le_of_not_lt h1, Nat.le_of_not_lt h2, le_of_not_lt h3⟩
  · unfold detect_gesture
    rw [if_neg (by decide), if_pos (by decide)]
  · unfold detect_gesture
    rw [if_neg (by decide), if_neg (by decide),
        if_pos (by rw [net_distance_stroke_short]; norm_num)]

/-- Witness for `gesture_floors`: the floors hold at the stroke the
theorem itself shows produces a gesture. -/
theorem gesture_floors_witness :
    5 ≤ (stroke_right 600).points.length ∧ 500 ≤ (stroke_right 600).elapsed_ms ∧
      (50 : ℝ) ≤ net_distance (stroke_right 600) :=
  gesture_floors.1 (stroke_right 600) (by rw [gesture_floors.2.1]; simp)

/-- Counterexample to claim C5 as stated: a stroke whose net
displacement magnitude is exactly 50 — which does not EXCEED 50 —
still yields a gesture. -/
theorem gesture_distance_floor_counterexample :
    net_distance stroke_mag50 = 50 ∧ ¬ (50 : ℝ) < net_distance stroke_mag50 ∧
    detect_gesture stroke_mag50 = some "right" := by
  refine ⟨net_distance_stroke_mag50, by rw [net_distance_stroke_mag50]; exact lt_irrefl 50, ?_⟩
  rw [detect_gesture_passes stroke_mag50 (by decide) (by decide)
        (by rw [net_distance_stroke_mag50])]
  rw [show net_dx stroke_mag50 = 50 from rfl,
      show net_dy stroke_mag50 = 0 from rfl]
  have h : angleDeg 50 0 = 0 := by
    rw [angleDeg_of_pos_dx 50 0 (by norm_num)]
    norm_num [Real.arctan_zero]
  rw [h]
  exact bucketAngle_right_sector 0 (by norm_num) (by norm_num)

/-! ## Helper lemmas: capture diffing -/

lemma foldl_push_eq_filterMap {α β : Type} (f : α → Option β) :
    ∀ (l : List α) (acc : List β),
      l.foldl (fun evs a => evs ++ (f a).toList) acc = acc ++ l.filterMap f := by
  intro l
  induction l with
  | nil => intro acc; simp
  | cons a l ih =>
    intro acc
    rw [List.foldl_cons, List.filterMap_cons, ih]
    cases h : f a <;> simp [h]

lemma enumFrom_filterMap_range {β : Type} (f : ℕ × Bool → Option β) :
    ∀ (l : List Bool) (n : ℕ),
      (l.enumFrom n).filterMap f
        = (List.range l.length).filterMap
            (fun i => f (n + i, (l.get? i).getD false)) := by
  intro l
  induction l with
  | nil => intro n; simp
  | cons a l ih =>
    intro n
    rw [List.enumFrom_cons, List.filterMap_cons, ih (n + 1), List.length_cons,
        List.range_succ_eq_map, List.filterMap_cons, List.filterMap_map]
    have harg : ((fun i => f (n + i, (((a :: l).get? i).getD false))) ∘ Nat.succ)
        = fun i => f (n + 1 + i, ((l.get? i).getD false)) := by
      funext i
      simp only [Function.comp_apply, List.get?_cons_succ]
      rw [show n + Nat.succ i = n + 1 + i by omega]
    rw [harg]
    simp only [List.get?_cons_zero, Option.getD_some, Nat.add_zero]

lemma capture_body_eq (current_mouse last_mouse : MouseState) :
    (fun (evs : List MouseEvent) (ip : ℕ × Bool) =>
        let last_pressed := (last_mouse.button_pressed.get? ip.1).getD false
        if ip.2 ≠ last_pressed then
          match button_edge_event current_mouse ip.1 ip.2 with
          | some e => evs ++ [e]
          | none => evs
        else evs)
      = fun evs ip =>
          evs ++ (if ip.2 ≠ (last_mouse.button_pressed.get? ip.1).getD false
                  then button_edge_event current_mouse ip.1 ip.2 else none).toList := by
  funext evs ip
  dsimp only
  by_cases h : ip.2 = (last_mouse.button_pressed.get? ip.1).getD false
  · rw [if_neg (not_not_intro h), if_neg (not_not_intro h)]
    simp
  · rw [if_pos h, if_pos h]
    cases button_edge_event current_mouse ip.1 ip.2 <;> simp

/-! ## Claim theorems: capture, injection, cursor speed -/

/-- Claim C6: each tick's diff against the previous sample produces
exactly one move event when the coordinates changed (and none
otherwise), followed by one button-edge event per index of the current
sample whose pressed state flipped relative to the previous sample
(absent previous entries read as unpressed), with indices 0, 1, 2
mapped to left, right, middle and flips at any other index dropped
silently; the stored previous sample becomes the current sample. -/
theorem capture_diff_events (current_mouse last_mouse : MouseState) :
    capture_mouse_events current_mouse last_mouse =
      ((if current_mouse.coords ≠ last_mouse.coords
          then [move_event current_mouse] else [])
        ++ expected_button_events current_mouse last_mouse,
       current_mouse) := by
  simp only [capture_mouse_events, expected_button_events, Prod.mk.injEq, and_true]
  rw [capture_body_eq current_mouse last_mouse,
      show current_mouse.button_pressed.enum
          = current_mouse.button_pressed.enumFrom 0 from rfl,
      foldl_push_eq_filterMap, enumFrom_filterMap_range]
  simp only [Nat.zero_add]

/-- Claim C7: for every event whose button field is absent or names a
known button, the injector's trace is the move to the event's absolute
coordinates, then the button edge (if a button is present), then each
nonzero wheel delta (x before y) — in that fixed order. -/
theorem emulate_order (event : MouseEvent)
    (h : event.button = none ∨ event.button = some "left" ∨
         event.button = some "right" ∨ event.button = some "middle") :
    emulate_mouse_event event =
      Except.ok ([EnigoCall.mouse_move_to event.x event.y]
        ++ button_calls event ++ wheel_calls event) := by
  unfold emulate_mouse_event button_calls wheel_calls
  rcases h with h | h | h | h <;> rw [h] <;> simp [parse_button, List.append_assoc]

/-- Witness for `emulate_order`: a combined move + press + scroll
event arrives as move, then press, then the two scrolls. -/
theorem emulate_order_witness :
    emulate_mouse_event
        { x := 10, y := 20, button := some "left", pressed := true
          wheel_x := 2, wheel_y := 3 }
      = Except.ok [EnigoCall.mouse_move_to 10 20,
          EnigoCall.mouse_down MouseButton.left,
          EnigoCall.mouse_scroll_x 2, EnigoCall.mouse_scroll_y 3] := by
  rw [emulate_order _ (Or.inr (Or.inl rfl))]
  rfl

/-- Claim C10: an event carrying an unknown button name returns `Ok`
with only the pointer move performed: the button edge and the wheel
deltas are both skipped, even when `wheel_x`/`wheel_y` are nonzero. -/
theorem emulate_unknown_button (event : MouseEvent) (name : String)
    (hb : event.button = some name)
    (h1 : name ≠ "left") (h2 : name ≠ "right") (h3 : name ≠ "middle") :
    emulate_mouse_event event = Except.ok [EnigoCall.mouse_move_to event.x event.y] := by
  have hp : parse_button name = none := by
    unfold parse_button
    split <;> simp_all
  simp [emulate_mouse_event, hb, hp]

/-- Witness for `emulate_unknown_button`: button name "x1" with
nonzero wheel deltas produces only the move call. -/
theorem emulate_unknown_button_witness :
    emulate_mouse_event
        { x := 5, y := 6, button := some "x1", pressed := true
          wheel_x := 2, wheel_y := 3 }
      = Except.ok [EnigoCall.mouse_move_to 5 6] :=
  emulate_unknown_button _ "x1" rfl (by decide) (by decide) (by decide)

/-- Claim C9: `set_cursor_speed` stores the input clamped to the range
[0.1, 5.0] instead of rejecting out-of-range values: the stored speed
always lies in the range, in-range inputs are stored unchanged, input
10 stores 5 and input −1 stores 0.1. -/
theorem set_cursor_speed_clamps (config : InputConfig) (speed : ℚ) :
    (1 / 10 : ℚ) ≤ (set_cursor_speed config speed).cursor_speed ∧
    (set_cursor_speed config speed).cursor_speed ≤ 5 ∧
    ((1 / 10 : ℚ) ≤ speed → speed ≤ 5 →
      (set_cursor_speed config speed).cursor_speed = speed) ∧
    (set_cursor_speed config 10).cursor_speed = 5 ∧
    (set_cursor_speed config (-1)).cursor_speed = 1 / 10 := by
  simp only [set_cursor_speed]
  refine ⟨le_min (le_max_right _ _) (by norm_num), min_le_right _ _, ?_, ?_, ?_⟩
  · intro hlo hhi
    rw [max_eq_left hlo, min_eq_left hhi]
  · rw [max_eq_left (by norm_num), min_eq_right (by norm_num)]
  · rw [max_eq_right (by norm_num), min_eq_left (by norm_num)]

/-- Witness for `set_cursor_speed_clamps`: the in-range input 2 on the
initial config is stored unchanged. -/
theorem set_cursor_speed_clamps_witness :
    (set_cursor_speed InputManager.new_config 2).cursor_speed = 2 :=
  (set_cursor_speed_clamps InputManager.new_config 2).2.2.1 (by norm_num) (by norm_num)

end MouseBridge
